import Mathlib

/-!
Verification of the document Q&A backend against its specification.

The Python services are shallowly embedded as executable Lean functions over
`ℚ` (Python floats treated as exact rationals), `List Char` (Python strings),
and `Except Unit` (a Python call that may raise). External effects (LLM
responses, vector-store replies, file contents) are passed in as explicit
arguments, so each function mirrors the control flow of its source method.
-/

/-- Round-half-to-even on rationals, the rounding mode of Python's `round`. -/
def roundHalfEven (q : ℚ) : ℤ :=
  if q - ⌊q⌋ = 1 / 2 then (if Even ⌊q⌋ then ⌊q⌋ else ⌊q⌋ + 1) else round q

/-- Python `round(x, 3)`. -/
def round3 (q : ℚ) : ℚ := roundHalfEven (q * 1000) / 1000

/-- Python `round(x, 4)`. -/
def round4 (q : ℚ) : ℚ := roundHalfEven (q * 10000) / 10000

namespace ConfidenceScorer

/-- One element of `retrieval_results` in
`ConfidenceScorer.calculate_confidence`: a dict whose `"score"` and `"text"`
keys may be absent (`score` is read with `r.get("score", 0.0)`, `text` with
the raising access `r["text"]`). -/
structure RetrievalResult where
  score : Option ℚ
  text : Option String
deriving Repr, DecidableEq

/-- `r.get("score", 0.0)`. -/
def getScore (r : RetrievalResult) : ℚ := r.score.getD 0

/-- Result dictionary of `calculate_confidence`. -/
structure ConfidenceMetrics where
  overall : ℚ
  retrieval : ℚ
  coverage : ℚ
  faithfulness : ℚ
  relevancy : ℚ
deriving Repr, DecidableEq

/-- The fixed fallback returned by the outer `except` branch of
`calculate_confidence`. -/
def neutralConfidence : ConfidenceMetrics :=
  { overall := 1 / 2, retrieval := 1 / 2, coverage := 1 / 2
    faithfulness := 1 / 2, relevancy := 1 / 2 }

/-- `_check_faithfulness`: the OpenAI call may raise (`Except.error`, caught
by the outer `try` returning 0.5); a response whose content does not parse as
a float gives `Option.none` (the inner `except` returning 0.5); a parsed
float is clamped into [0, 1] by `min(max(score, 0.0), 1.0)`. -/
def check_faithfulness (resp : Except Unit (Option ℚ)) : ℚ :=
  match resp with
  | .error _ => 1 / 2
  | .ok none => 1 / 2
  | .ok (some score) => min (max score 0) 1

/-- `_check_relevancy`: identical response handling to `_check_faithfulness`. -/
def check_relevancy (resp : Except Unit (Option ℚ)) : ℚ :=
  match resp with
  | .error _ => 1 / 2
  | .ok none => 1 / 2
  | .ok (some score) => min (max score 0) 1

/-- `ConfidenceScorer.calculate_confidence`. The list comprehension
`[r["text"] for r in retrieval_results]` raises `KeyError` when a result has
no `"text"` key; the surrounding `try` then returns the neutral metrics.
`faithResp`/`relResp` are the (possibly raising, possibly unparseable) LLM
grading responses consumed by `_check_faithfulness` / `_check_relevancy`. -/
def calculate_confidence (retrieval_results : List RetrievalResult)
    (faithResp relResp : Except Unit (Option ℚ)) : ConfidenceMetrics :=
  if retrieval_results.all (fun r => r.text.isSome) then
    let scores := retrieval_results.map getScore
    let retrievalConf : ℚ := if scores.isEmpty then 0 else scores.sum / scores.length
    let highRelevance := (scores.filter (fun s => 7 / 10 < s)).length
    let coverage : ℚ := (highRelevance : ℚ) / (max scores.length 1 : ℕ)
    let faithfulness := check_faithfulness faithResp
    let relevancy := check_relevancy relResp
    let composite :=
      1 / 4 * retrievalConf + 3 / 20 * coverage
        + 7 / 20 * faithfulness + 1 / 4 * relevancy
    { overall := round3 composite
      retrieval := round3 retrievalConf
      coverage := round3 coverage
      faithfulness := round3 faithfulness
      relevancy := round3 relevancy }
  else
    neutralConfidence

end ConfidenceScorer

namespace Tasks

open ConfidenceScorer

/-- The simplified confidence dict built inline in `generate_answer_task`
(tasks.py lines 259-269) and persisted via `answer_repo.create_answer`:
`retrieval_conf = float(np.mean(scores)) if scores else 0.5`, overall equals
that same mean, and faithfulness/relevancy are the constants 0.8. -/
structure TaskConfidence where
  overall : ℚ
  retrieval : ℚ
  faithfulness : ℚ
  relevancy : ℚ
deriving Repr, DecidableEq

/-- Confidence computation of `generate_answer_task` (no call to
`ConfidenceScorer`). -/
def taskConfidence (retrieval_results : List RetrievalResult) : TaskConfidence :=
  let scores := retrieval_results.map getScore
  let retrievalConf : ℚ := if scores.isEmpty then 1 / 2 else scores.sum / scores.length
  { overall := retrievalConf
    retrieval := retrievalConf
    faithfulness := 4 / 5
    relevancy := 4 / 5 }

end Tasks

namespace DocumentProcessor

/-- Python `str.find` helper: first index at which `needle` starts in the
remaining haystack, else `none`. -/
def findAux (needle : List Char) : List Char → Nat → Option Nat
  | [], i => if needle = [] then some i else none
  | c :: t, i => if needle.isPrefixOf (c :: t) then some i else findAux needle t (i + 1)

/-- Python `haystack.find(needle)`: index of the first occurrence, `-1` when
absent. -/
def strFind (hay needle : List Char) : Int :=
  match findAux needle hay 0 with
  | some i => (i : Int)
  | none => -1

/-- Python truthiness of `split.strip()` being empty: all characters are
whitespace (including the empty string). -/
def isBlank (s : List Char) : Bool := s.all Char.isWhitespace

/-- One chunk dictionary as built by the three parse methods. `content_hash`
(a SHA-256 prefix) is outside the embedding; the claims do not mention it. -/
structure Chunk where
  chunk_index : Nat
  text : List Char
  page_number : Option Nat
  char_offset_start : Int
  char_offset_end : Int
  token_count : Nat
deriving Repr, DecidableEq

/-- Python `len(split.split())`: number of maximal non-whitespace runs. -/
def tokenCount (s : List Char) : Nat :=
  ((s.splitOnP Char.isWhitespace).filter (fun w => w ≠ [])).length

/-- The chunk-dictionary literal shared by `_parse_pdf`, `_parse_docx` and
`_parse_text`: `char_start = source.find(split)`,
`char_offset_start = max(0, char_start)`,
`char_offset_end = char_start + len(split) if char_start >= 0 else len(split)`. -/
def mkChunk (sourceText split : List Char) (idx : Nat) (page : Option Nat) : Chunk :=
  let charStart := strFind sourceText split
  { chunk_index := idx
    text := split
    page_number := page
    char_offset_start := max 0 charStart
    char_offset_end := if 0 ≤ charStart then charStart + split.length else (split.length : Int)
    token_count := tokenCount split }

/-- Inner loop of `_parse_pdf` over `splits = self.splitter.split_text(page_text)`:
blank splits are skipped, appended chunks carry the running `chunk_index`,
which increments only on append. -/
def pdfSplitChunks (pageText : List Char) (page : Nat) : List (List Char) → Nat → List Chunk
  | [], _ => []
  | s :: ss, k =>
    if isBlank s then pdfSplitChunks pageText page ss k
    else mkChunk pageText s k (some page) :: pdfSplitChunks pageText page ss (k + 1)

/-- Page loop of `_parse_pdf`. `pages` is the list of per-page texts after the
OCR fallback has been applied (the external PyMuPDF/pytesseract extraction);
a page whose text is still blank is skipped. `page_number` is 1-based. -/
def pdfPageLoop (splitter : List Char → List (List Char)) :
    List (Nat × List Char) → Nat → List Chunk
  | [], _ => []
  | (pno, ptext) :: ps, k =>
    if isBlank ptext then pdfPageLoop splitter ps k
    else
      let cs := pdfSplitChunks ptext pno (splitter ptext) k
      cs ++ pdfPageLoop splitter ps (k + cs.length)

/-- `DocumentProcessor._parse_pdf` on the extracted page texts (already
paired with their 1-based page numbers). -/
def parse_pdf (splitter : List Char → List (List Char)) (pages : List (List Char)) :
    List Chunk :=
  pdfPageLoop splitter (pages.enum.map (fun p => (p.1 + 1, p.2))) 0

/-- Loop of `_parse_docx` / `_parse_text`: `for idx, split in enumerate(splits)`
with blank splits skipped while the enumeration index keeps advancing. -/
def enumChunkLoop (fullText : List Char) : List (List Char) → Nat → List Chunk
  | [], _ => []
  | s :: ss, i =>
    if isBlank s then enumChunkLoop fullText ss (i + 1)
    else mkChunk fullText s i none :: enumChunkLoop fullText ss (i + 1)

/-- `DocumentProcessor._parse_docx` on the joined paragraph text (the
python-docx extraction is external). -/
def parse_docx (splitter : List Char → List (List Char)) (fullText : List Char) :
    List Chunk :=
  enumChunkLoop fullText (splitter fullText) 0

/-- `DocumentProcessor._parse_text` on the file contents. -/
def parse_text (splitter : List Char → List (List Char)) (fullText : List Char) :
    List Chunk :=
  enumChunkLoop fullText (splitter fullText) 0

/-- Python `str.lower()` on an extension, character by character. -/
def lowerExt (e : String) : String := ⟨e.data.map Char.toLower⟩

/-- Recognized extension test of `parse_document` (after `.lower()`). -/
def recognizedExt (e : String) : Bool :=
  e = ".pdf" || [".docx", ".doc"].contains e || [".txt"].contains e

/-- `DocumentProcessor.parse_document`: dispatch on the lowered extension
`extension = Path(file_path).suffix.lower()`. The per-format parsers may
raise (corrupt input makes the underlying library throw), which the outer
`except` logs and re-raises unchanged; an unrecognized extension logs a
warning and returns the empty list. -/
def parse_document (ext : String)
    (pdfRes docxRes txtRes : Except Unit (List Chunk)) : Except Unit (List Chunk) :=
  if lowerExt ext = ".pdf" then pdfRes
  else if [".docx", ".doc"].contains (lowerExt ext) then docxRes
  else if [".txt"].contains (lowerExt ext) then txtRes
  else .ok []

end DocumentProcessor

namespace VectorStore

/-- The metadata dict stored per vector-index entry. -/
structure ChunkMeta where
  document_id : Option String
  chunk_id : Option String
  page_number : Option Nat
  chunk_index : Nat
deriving Repr, DecidableEq

/-- The raw ChromaDB query response consumed by `VectorStoreService.query`:
parallel per-query row lists; `distances` may be absent. -/
structure QueryResponse where
  ids : List (List String)
  documents : List (List String)
  metadatas : List (List ChunkMeta)
  distances : Option (List (List ℚ))
deriving Repr, DecidableEq

/-- One transformed result dict of `VectorStoreService.query`. -/
structure QueryHit where
  vector_id : String
  text : String
  metadata : ChunkMeta
  score : ℚ
  chunk_id : Option String
deriving Repr, DecidableEq

/-- Python truthiness of `results['distances']`: present and non-empty. -/
def distTruthy : Option (List (List ℚ)) → Bool
  | none => false
  | some l => !l.isEmpty

/-- Result-transformation loop of `VectorStoreService.query` (lines 119-132):
guarded by `if results['ids'] and len(results['ids']) > 0`, it walks
`range(len(results['ids'][0]))` and builds one dict per index with
`score = 1.0 - results['distances'][0][i] if results['distances'] else 0.9`. -/
def queryTransform (res : QueryResponse) : List QueryHit :=
  if !res.ids.isEmpty then
    (List.range (res.ids.headD []).length).map fun i =>
      let meta := (res.metadatas.headD []).getD i ⟨none, none, none, 0⟩
      { vector_id := (res.ids.headD []).getD i ""
        text := (res.documents.headD []).getD i ""
        metadata := meta
        score :=
          if distTruthy res.distances then
            1 - ((res.distances.getD []).headD []).getD i 0
          else 9 / 10
        chunk_id := meta.chunk_id }
  else []

/-- A concrete ChromaDB response with cosine distance 3/2 (an angle beyond
90 degrees), used to evaluate the score mapping. -/
def sampleResponse : QueryResponse :=
  { ids := [["v1"]]
    documents := [["doc text"]]
    metadatas := [[⟨some "d1", some "c1", some 1, 0⟩]]
    distances := some [[3 / 2]] }

end VectorStore

namespace AnswerGenerator

open DocumentProcessor (findAux)

/-- Python substring test `needle in haystack`. -/
def containsSub (needle hay : List Char) : Bool := (findAux needle hay 0).isSome

/-- The literal citation label built by `f"[{idx}]"`. -/
def label (idx : Nat) : List Char := '[' :: (Nat.toDigits 10 idx ++ [']'])

/-- One element of `contexts` as passed to `AnswerGenerator.generate_answer`
(a result dict from the vector store). -/
structure Context where
  text : List Char
  score : Option ℚ
  chunk_id : Option String
  metadata : VectorStore.ChunkMeta
deriving Repr, DecidableEq

/-- One citation dict appended to `used_citations`. -/
structure Citation where
  chunk_id : Option String
  document_id : Option String
  page_number : Option Nat
  excerpt : List Char
  relevance_score : ℚ
  citation_order : Nat
deriving Repr, DecidableEq

/-- The citation dict literal of `generate_answer` (lines 69-76):
`excerpt = ctx["text"][:200] + "..." if len(ctx["text"]) > 200 else ctx["text"]`. -/
def mkCitation (ctx : Context) (idx : Nat) : Citation :=
  { chunk_id := ctx.chunk_id
    document_id := ctx.metadata.document_id
    page_number := ctx.metadata.page_number
    excerpt := if 200 < ctx.text.length then ctx.text.take 200 ++ "...".data else ctx.text
    relevance_score := ctx.score.getD 0
    citation_order := idx }

/-- Citation-extraction loop of `generate_answer` (lines 66-77):
`for idx, ctx in enumerate(contexts, 1): if f"[{idx}]" in answer_text: append`. -/
def citationLoop (answer : List Char) : List Context → Nat → List Citation
  | [], _ => []
  | c :: cs, i =>
    if containsSub (label (i + 1)) answer then
      mkCitation c (i + 1) :: citationLoop answer cs (i + 1)
    else citationLoop answer cs (i + 1)

/-- `used_citations` as computed by `AnswerGenerator.generate_answer` for a
given model answer text and supplied rank-ordered contexts. -/
def usedCitations (contexts : List Context) (answer : List Char) : List Citation :=
  citationLoop answer contexts 0

end AnswerGenerator

namespace EvaluationService

/-- The dictionary returned by `_calculate_rouge` on success. -/
structure RougeScores where
  rouge1_f1 : ℚ
  rouge2_f1 : ℚ
  rougeL_f1 : ℚ
deriving Repr, DecidableEq

/-- `EvaluationService._calculate_bleu`: the NLTK computation may raise, in
which case the method returns `None`; otherwise it returns the (possibly
smoothed, possibly 0.0 for empty token lists) score. -/
def calculate_bleu (call : Except Unit ℚ) : Option ℚ :=
  match call with
  | .error _ => none
  | .ok s => some s

/-- `EvaluationService._calculate_rouge`: a raising rouge-score computation is
caught and replaced by the all-zero dictionary (lines 158-164) - never by an
absent value. -/
def calculate_rouge (call : Except Unit RougeScores) : RougeScores :=
  match call with
  | .error _ => { rouge1_f1 := 0, rouge2_f1 := 0, rougeL_f1 := 0 }
  | .ok r => r

/-- `EvaluationService._calculate_semantic_similarity`: returns `None` both
when the computation raises and when no API key is configured (`.ok none`). -/
def calculate_semantic_similarity (call : Except Unit (Option ℚ)) : Option ℚ :=
  match call with
  | .error _ => none
  | .ok v => v

/-- `EvaluationService._calculate_overall_score` (lines 237-264): builds the
parallel `scores`/`weights` lists, including BLEU (weight 0.25) and semantic
similarity (weight 0.50) only when not `None`, while
`rouge_l = rouge.get('rougeL_f1', 0)` is a float from `_calculate_rouge` and
so always passes the `is not None` test; weights are renormalized by their
sum and the weighted average returned; an empty score list would give `None`. -/
def calculate_overall_score (bleu : Option ℚ) (rouge : RougeScores)
    (semantic : Option ℚ) : Option ℚ :=
  let swBleu : List (ℚ × ℚ) := match bleu with
    | some b => [(b, 1 / 4)]
    | none => []
  let swRouge : List (ℚ × ℚ) := [(rouge.rougeL_f1, 1 / 4)]
  let swSem : List (ℚ × ℚ) := match semantic with
    | some s => [(s, 1 / 2)]
    | none => []
  let sw := swBleu ++ swRouge ++ swSem
  if sw.isEmpty then none
  else
    let totalWeight := (sw.map Prod.snd).sum
    some ((sw.map (fun p => p.1 * (p.2 / totalWeight))).sum)

/-- The `EvaluationMetrics` pydantic model (schemas.py lines 153-159): every
field is `Optional[float] = None`, so the bare constructor call
`EvaluationMetrics()` has every field absent. -/
structure EvaluationMetrics where
  bleu_score : Option ℚ := none
  rouge_1_f1 : Option ℚ := none
  rouge_2_f1 : Option ℚ := none
  rouge_l_f1 : Option ℚ := none
  semantic_similarity : Option ℚ := none
  overall_score : Option ℚ := none
deriving Repr, DecidableEq

/-- The outcomes of the three fallible metric sub-computations inside one
`evaluate` call. -/
structure EvalCalls where
  bleu : Except Unit ℚ
  rouge : Except Unit RougeScores
  semantic : Except Unit (Option ℚ)
deriving Repr

/-- `EvaluationService.evaluate`: the whole body runs under a `try` whose
`except` returns the bare `EvaluationMetrics()`. `env` is `.error ()` when
any statement of the body raises unexpectedly, and otherwise carries the
sub-computation outcomes; in the normal branch every rouge field is rounded
to four places unconditionally, the optional fields only when present
(lines 55-62). -/
def evaluate (env : Except Unit EvalCalls) : EvaluationMetrics :=
  match env with
  | .error _ => {}
  | .ok calls =>
    let bleu := calculate_bleu calls.bleu
    let rouge := calculate_rouge calls.rouge
    let semantic := calculate_semantic_similarity calls.semantic
    let overall := calculate_overall_score bleu rouge semantic
    { bleu_score := bleu.map round4
      rouge_1_f1 := some (round4 rouge.rouge1_f1)
      rouge_2_f1 := some (round4 rouge.rouge2_f1)
      rouge_l_f1 := some (round4 rouge.rougeL_f1)
      semantic_similarity := semantic.map round4
      overall_score := overall.map round4 }

/-- The renormalized weighted combination the spec describes, restricted to
the sub-scores the code can actually drop (BLEU and semantic similarity),
with ROUGE-L always included at weight 1/4. Stated separately so the theorem
for C6 compares the code's list computation against this closed form. -/
def renormalizedOverall (bleu : Option ℚ) (rougeL : ℚ) (semantic : Option ℚ) : ℚ :=
  let num := (bleu.elim 0 (fun b => 1 / 4 * b)) + 1 / 4 * rougeL
    + (semantic.elim 0 (fun s => 1 / 2 * s))
  let den := (if bleu.isSome then (1 : ℚ) / 4 else 0) + 1 / 4
    + (if semantic.isSome then (1 : ℚ) / 2 else 0)
  num / den

end EvaluationService

/-! ## Theorems -/

/-- C9: a faithfulness or relevancy grading response that parses as a number
is clamped into [0, 1] by `min(max(score, 0.0), 1.0)` — a value below 0
becomes 0.0 and a value above 1 becomes 1.0, never the neutral default 0.5 —
and both sub-scores lie in [0, 1] on every possible response. -/
theorem C9_grading_score_clamp :
    (∀ q : ℚ,
      ConfidenceScorer.check_faithfulness (.ok (some q)) = min (max q 0) 1
      ∧ ConfidenceScorer.check_relevancy (.ok (some q)) = min (max q 0) 1
      ∧ (q < 0 → ConfidenceScorer.check_faithfulness (.ok (some q)) = 0)
      ∧ (1 < q → ConfidenceScorer.check_faithfulness (.ok (some q)) = 1)
      ∧ (q < 0 → ConfidenceScorer.check_relevancy (.ok (some q)) = 0)
      ∧ (1 < q → ConfidenceScorer.check_relevancy (.ok (some q)) = 1))
    ∧ (∀ resp : Except Unit (Option ℚ),
      0 ≤ ConfidenceScorer.check_faithfulness resp
      ∧ ConfidenceScorer.check_faithfulness resp ≤ 1
      ∧ 0 ≤ ConfidenceScorer.check_relevancy resp
      ∧ ConfidenceScorer.check_relevancy resp ≤ 1) := by
  constructor
  · intro q
    have hlow : q < 0 → min (max q 0) 1 = 0 := by
      intro h
      rw [max_eq_right h.le]
      exact min_eq_left (by norm_num)
    have hhigh : 1 < q → min (max q 0) 1 = 1 := by
      intro h
      rw [max_eq_left (by linarith), min_eq_right (by linarith)]
    exact ⟨rfl, rfl, hlow, hhigh, hlow, hhigh⟩
  · intro resp
    rcases resp with e | v
    · refine ⟨by norm_num [ConfidenceScorer.check_faithfulness], ?_, ?_, ?_⟩ <;>
        norm_num [ConfidenceScorer.check_faithfulness, ConfidenceScorer.check_relevancy]
    · rcases v with _ | q
      · refine ⟨?_, ?_, ?_, ?_⟩ <;>
          norm_num [ConfidenceScorer.check_faithfulness, ConfidenceScorer.check_relevancy]
      · have h0 : (0 : ℚ) ≤ min (max q 0) 1 :=
          le_min (le_max_right q 0) (by norm_num)
        have h1 : min (max q 0) 1 ≤ 1 := min_le_right _ _
        exact ⟨h0, h1, h0, h1⟩

/-- Witness for C9 at the concrete out-of-range responses 3/2 and -1/2. -/
theorem C9_grading_score_clamp_witness :
    ConfidenceScorer.check_faithfulness (.ok (some (3 / 2))) = 1
    ∧ ConfidenceScorer.check_relevancy (.ok (some (-(1 / 2)))) = 0 :=
  ⟨(C9_grading_score_clamp.1 (3 / 2)).2.2.2.1 (by norm_num),
   (C9_grading_score_clamp.1 (-(1 / 2))).2.2.2.2.1 (by norm_num)⟩

/-- C7: the confidence scoring operation is a total function (it returns a
`ConfidenceMetrics` value on every input), and a failure inside the scoring
pipeline — here a retrieval result without a `"text"` key, which makes
`r["text"]` raise into the outer `except` — yields the fixed neutral result
whose overall, retrieval, coverage, faithfulness and relevancy are all 0.5. -/
theorem C7_scoring_degrades_to_neutral :
    (∀ (results : List ConfidenceScorer.RetrievalResult)
      (faithResp relResp : Except Unit (Option ℚ)),
      (∃ r ∈ results, r.text = none) →
      ConfidenceScorer.calculate_confidence results faithResp relResp
        = ConfidenceScorer.neutralConfidence)
    ∧ ConfidenceScorer.neutralConfidence.overall = 1 / 2
    ∧ ConfidenceScorer.neutralConfidence.retrieval = 1 / 2
    ∧ ConfidenceScorer.neutralConfidence.coverage = 1 / 2
    ∧ ConfidenceScorer.neutralConfidence.faithfulness = 1 / 2
    ∧ ConfidenceScorer.neutralConfidence.relevancy = 1 / 2 := by
  refine ⟨?_, rfl, rfl, rfl, rfl, rfl⟩
  rintro results faithResp relResp ⟨x, hx, ht⟩
  have hall : results.all (fun r => r.text.isSome) = false := by
    rw [List.all_eq_false]
    exact ⟨x, hx, by simp [ht]⟩
  simp [ConfidenceScorer.calculate_confidence, hall]

/-- Witness for C7 at a concrete result list with a missing text field. -/
theorem C7_scoring_degrades_to_neutral_witness :
    ConfidenceScorer.calculate_confidence
        [{ score := some 1, text := none }] (.ok none) (.ok none)
      = ConfidenceScorer.neutralConfidence :=
  C7_scoring_degrades_to_neutral.1 [{ score := some 1, text := none }]
    (.ok none) (.ok none) ⟨{ score := some 1, text := none }, by simp, rfl⟩

/-- C3 counterexample: for an unrecognized extension, `parse_document` does
not raise any error — it logs a warning and returns the empty chunk list as
a normal result (and no `UnsupportedFormat` or `ParseError` class exists
anywhere in the repository). -/
theorem C3_unsupported_extension_counterexample :
    DocumentProcessor.parse_document ".xyz" (.error ()) (.error ()) (.error ())
        = .ok ([] : List DocumentProcessor.Chunk)
    ∧ DocumentProcessor.parse_document ".xyz" (.error ()) (.error ()) (.error ())
        ≠ .error () := by
  have h : DocumentProcessor.parse_document ".xyz" (.error ()) (.error ()) (.error ())
      = .ok ([] : List DocumentProcessor.Chunk) := by
    unfold DocumentProcessor.parse_document
    rw [if_neg (by decide), if_neg (by decide), if_neg (by decide)]
  refine ⟨h, ?_⟩
  rw [h]
  intro hc
  exact Except.noConfusion hc

/-- C3 (amended): for an unrecognized extension `parse_document` returns the
empty list as a normal result (no error), and for a recognized format the
underlying parser's outcome — including the exception a corrupt file makes
the parsing library raise — propagates unchanged through the re-raising
`except` handler. -/
theorem C3_parse_dispatch :
    ∀ (ext : String) (pdfRes docxRes txtRes : Except Unit (List DocumentProcessor.Chunk)),
      (DocumentProcessor.recognizedExt (DocumentProcessor.lowerExt ext) = false →
        DocumentProcessor.parse_document ext pdfRes docxRes txtRes = .ok [])
      ∧ (DocumentProcessor.lowerExt ext = ".pdf" →
        DocumentProcessor.parse_document ext pdfRes docxRes txtRes = pdfRes)
      ∧ (¬ DocumentProcessor.lowerExt ext = ".pdf" →
        [".docx", ".doc"].contains (DocumentProcessor.lowerExt ext) = true →
        DocumentProcessor.parse_document ext pdfRes docxRes txtRes = docxRes)
      ∧ (¬ DocumentProcessor.lowerExt ext = ".pdf" →
        ¬ [".docx", ".doc"].contains (DocumentProcessor.lowerExt ext) = true →
        [".txt"].contains (DocumentProcessor.lowerExt ext) = true →
        DocumentProcessor.parse_document ext pdfRes docxRes txtRes = txtRes) := by
  intro ext pdfRes docxRes txtRes
  refine ⟨?_, ?_, ?_, ?_⟩
  · intro h
    simp only [DocumentProcessor.recognizedExt, Bool.or_eq_false_iff] at h
    obtain ⟨⟨h1, h2⟩, h3⟩ := h
    unfold DocumentProcessor.parse_document
    rw [if_neg (by simpa using h1),
      if_neg (by intro hc; rw [hc] at h2; exact Bool.noConfusion h2),
      if_neg (by intro hc; rw [hc] at h3; exact Bool.noConfusion h3)]
  · intro h
    unfold DocumentProcessor.parse_document
    rw [if_pos h]
  · intro h1 h2
    unfold DocumentProcessor.parse_document
    rw [if_neg h1, if_pos h2]
  · intro h1 h2 h3
    unfold DocumentProcessor.parse_document
    rw [if_neg h1, if_neg h2, if_pos h3]

/-- Witness for C3: an upper-case PDF extension dispatches to the PDF parser
and a raising parse propagates. -/
theorem C3_parse_dispatch_witness :
    DocumentProcessor.parse_document ".PDF" (.error ()) (.ok []) (.ok []) = .error () :=
  (C3_parse_dispatch ".PDF" (.error ()) (.ok []) (.ok [])).2.1 (by decide)

/-- C4 counterexample: the query result transformation sets
`score = 1.0 - distance`, which for the legitimate cosine distance 3/2 (a
pair of vectors at an angle beyond 90 degrees) yields the score -1/2, outside
[0, 1] — the score is the raw cosine similarity in [-1, 1], not a value
mapped into [0, 1]. -/
theorem C4_score_out_of_range_counterexample :
    (VectorStore.queryTransform VectorStore.sampleResponse).map (fun h => h.score)
        = [-(1 / 2)]
    ∧ (-(1 / 2) : ℚ) < 0 := by
  constructor
  · simp [VectorStore.queryTransform, VectorStore.sampleResponse, VectorStore.distTruthy,
      List.range_succ]
    norm_num
  · norm_num

/-- C4 (amended): the query transformation returns exactly one entry per id
in the store's reply (hence at most k when the store honors `n_results=k`),
each entry's score is 1 minus the reported cosine distance — the cosine
similarity itself, 1 for identical direction — or the constant 0.9 when the
reply carries no distances, and an absent or empty namespace (an empty id
row) yields the empty list rather than an error. -/
theorem C4_query_transform :
    ∀ (res : VectorStore.QueryResponse) (k : ℕ),
      (VectorStore.queryTransform res).length = (res.ids.headD []).length
      ∧ ((res.ids.headD []).length ≤ k → (VectorStore.queryTransform res).length ≤ k)
      ∧ ((VectorStore.queryTransform res).map (fun h => h.score)
          = (List.range (res.ids.headD []).length).map (fun i =>
              if VectorStore.distTruthy res.distances then
                1 - ((res.distances.getD []).headD []).getD i 0
              else 9 / 10))
      ∧ ((res.ids.headD []) = [] → VectorStore.queryTransform res = []) := by
  intro res k
  have hlen : (VectorStore.queryTransform res).length = (res.ids.headD []).length := by
    rcases res with ⟨ids, docs, metas, dists⟩
    cases ids with
    | nil => simp [VectorStore.queryTransform]
    | cons r rs => simp [VectorStore.queryTransform]
  refine ⟨hlen, ?_, ?_, ?_⟩
  · intro hk
    rw [hlen]
    exact hk
  · rcases res with ⟨ids, docs, metas, dists⟩
    cases ids with
    | nil => simp [VectorStore.queryTransform]
    | cons r rs => simp [VectorStore.queryTransform, List.map_map, Function.comp]
  · intro h
    rcases res with ⟨ids, docs, metas, dists⟩
    cases ids with
    | nil => simp [VectorStore.queryTransform]
    | cons r rs =>
      simp only [List.headD_cons] at h
      simp [VectorStore.queryTransform, h]

/-- Witness for C4 at the sample response with k = 5. -/
theorem C4_query_transform_witness :
    (VectorStore.queryTransform VectorStore.sampleResponse).length ≤ 5 :=
  (C4_query_transform VectorStore.sampleResponse 5).2.1 (by decide)

/-- C8: every chunk built by any parse path has a non-negative
`char_offset_start` and a span whose width `char_offset_end -
char_offset_start` equals the chunk text's length, and when the chunk text is
not found in its source text (`find` returns -1) the span is exactly
[0, len(text)). -/
theorem C8_chunk_offset_span :
    ∀ (sourceText split : List Char) (idx : ℕ) (page : Option ℕ),
      0 ≤ (DocumentProcessor.mkChunk sourceText split idx page).char_offset_start
      ∧ (DocumentProcessor.mkChunk sourceText split idx page).char_offset_end
          - (DocumentProcessor.mkChunk sourceText split idx page).char_offset_start
          = (split.length : ℤ)
      ∧ (DocumentProcessor.strFind sourceText split < 0 →
          (DocumentProcessor.mkChunk sourceText split idx page).char_offset_start = 0
          ∧ (DocumentProcessor.mkChunk sourceText split idx page).char_offset_end
              = (split.length : ℤ)) := by
  intro src sp idx page
  show 0 ≤ max 0 (DocumentProcessor.strFind src sp)
    ∧ (if 0 ≤ DocumentProcessor.strFind src sp then
          DocumentProcessor.strFind src sp + (sp.length : ℤ)
        else (sp.length : ℤ)) - max 0 (DocumentProcessor.strFind src sp)
        = (sp.length : ℤ)
    ∧ (DocumentProcessor.strFind src sp < 0 →
        max 0 (DocumentProcessor.strFind src sp) = 0
        ∧ (if 0 ≤ DocumentProcessor.strFind src sp then
            DocumentProcessor.strFind src sp + (sp.length : ℤ)
          else (sp.length : ℤ)) = (sp.length : ℤ))
  by_cases h : 0 ≤ DocumentProcessor.strFind src sp
  · rw [if_pos h, max_eq_right h]
    exact ⟨h, by ring, fun hneg => absurd h (not_le.mpr hneg)⟩
  · rw [if_neg h, max_eq_left (le_of_lt (not_le.mp h))]
    exact ⟨le_refl 0, by ring, fun _ => ⟨rfl, rfl⟩⟩

/-- Witness for C8 at a split that does not occur in its source text. -/
theorem C8_chunk_offset_span_witness :
    (DocumentProcessor.mkChunk "abc".data "xyz".data 0 none).char_offset_start = 0
    ∧ (DocumentProcessor.mkChunk "abc".data "xyz".data 0 none).char_offset_end
        = ("xyz".data.length : ℤ) :=
  (C8_chunk_offset_span "abc".data "xyz".data 0 none).2.2 (by decide)

/-- The PDF split loop assigns the consecutive indices k, k+1, ... to the
chunks it appends. -/
theorem DocumentProcessor.pdfSplitChunks_map_index (pageText : List Char) (page : Nat) :
    ∀ (ss : List (List Char)) (k : Nat),
      (DocumentProcessor.pdfSplitChunks pageText page ss k).map (fun c => c.chunk_index)
        = List.range' k (DocumentProcessor.pdfSplitChunks pageText page ss k).length := by
  intro ss
  induction ss with
  | nil => intro k; simp [DocumentProcessor.pdfSplitChunks]
  | cons s ss ih =>
    intro k
    cases hb : DocumentProcessor.isBlank s with
    | true => simpa [DocumentProcessor.pdfSplitChunks, hb] using ih k
    | false =>
      simp only [DocumentProcessor.pdfSplitChunks, hb, Bool.false_eq_true, if_false,
        List.map_cons, List.length_cons, List.range'_succ]
      rw [ih (k + 1)]
      rfl

/-- The PDF page loop assigns the consecutive indices k, k+1, ... across
pages. -/
theorem DocumentProcessor.pdfPageLoop_map_index
    (splitter : List Char → List (List Char)) :
    ∀ (ps : List (Nat × List Char)) (k : Nat),
      (DocumentProcessor.pdfPageLoop splitter ps k).map (fun c => c.chunk_index)
        = List.range' k (DocumentProcessor.pdfPageLoop splitter ps k).length := by
  intro ps
  induction ps with
  | nil => intro k; simp [DocumentProcessor.pdfPageLoop]
  | cons p ps ih =>
    obtain ⟨pno, ptext⟩ := p
    intro k
    cases hb : DocumentProcessor.isBlank ptext with
    | true => simpa [DocumentProcessor.pdfPageLoop, hb] using ih k
    | false =>
      simp only [DocumentProcessor.pdfPageLoop, hb, Bool.false_eq_true, if_false,
        List.map_append, List.length_append]
      rw [DocumentProcessor.pdfSplitChunks_map_index, ih,
        List.range'_append_1, Nat.add_comm]

/-- The enumerate-style loop of `_parse_docx` / `_parse_text` yields dense
indices when no split is blank (the text splitter never emits a blank
split). -/
theorem DocumentProcessor.enumChunkLoop_map_index (fullText : List Char) :
    ∀ (ss : List (List Char)) (i : Nat),
      (∀ s ∈ ss, DocumentProcessor.isBlank s = false) →
      (DocumentProcessor.enumChunkLoop fullText ss i).map (fun c => c.chunk_index)
          = List.range' i ss.length
      ∧ (DocumentProcessor.enumChunkLoop fullText ss i).length = ss.length := by
  intro ss
  induction ss with
  | nil => intro i _; simp [DocumentProcessor.enumChunkLoop]
  | cons s ss ih =>
    intro i h
    have hs : DocumentProcessor.isBlank s = false := h s (List.mem_cons_self s ss)
    have hrest := ih (i + 1) (fun t ht => h t (List.mem_cons_of_mem s ht))
    simp only [DocumentProcessor.enumChunkLoop, hs, Bool.false_eq_true, if_false,
      List.map_cons, List.length_cons, List.range'_succ]
    constructor
    · rw [hrest.1]
      rfl
    · rw [hrest.2]

/-- C2: in every supported format path (PDF, DOCX, plain text), the
`chunk_index` values of the returned chunk sequence are exactly
0, 1, ..., n-1 in order — no gaps and no repeats. The hypothesis encodes the
guarantee of langchain's `RecursiveCharacterTextSplitter` (with its default
`strip_whitespace=True`) that `split_text` never returns a blank split, so
the defensive `if not split.strip(): continue` in the enumerate-style loops
never fires. -/
theorem C2_chunk_indices_dense :
    ∀ (splitter : List Char → List (List Char)) (pages : List (List Char))
      (docxText txtText : List Char),
      (∀ t s, s ∈ splitter t → DocumentProcessor.isBlank s = false) →
      ((DocumentProcessor.parse_pdf splitter pages).map (fun c => c.chunk_index)
          = List.range (DocumentProcessor.parse_pdf splitter pages).length)
      ∧ ((DocumentProcessor.parse_docx splitter docxText).map (fun c => c.chunk_index)
          = List.range (DocumentProcessor.parse_docx splitter docxText).length)
      ∧ ((DocumentProcessor.parse_text splitter txtText).map (fun c => c.chunk_index)
          = List.range (DocumentProcessor.parse_text splitter txtText).length) := by
  intro splitter pages docxText txtText h
  refine ⟨?_, ?_, ?_⟩
  · rw [List.range_eq_range']
    unfold DocumentProcessor.parse_pdf
    exact DocumentProcessor.pdfPageLoop_map_index splitter _ 0
  · rw [List.range_eq_range']
    unfold DocumentProcessor.parse_docx
    have hd := DocumentProcessor.enumChunkLoop_map_index docxText (splitter docxText) 0
      (fun s hs => h docxText s hs)
    rw [hd.2]
    exact hd.1
  · rw [List.range_eq_range']
    unfold DocumentProcessor.parse_text
    have ht := DocumentProcessor.enumChunkLoop_map_index txtText (splitter txtText) 0
      (fun s hs => h txtText s hs)
    rw [ht.2]
    exact ht.1

/-- Witness for C2 with a concrete splitter that returns the whole text as a
single split (and nothing for blank text). -/
theorem C2_chunk_indices_dense_witness :
    (DocumentProcessor.parse_docx
        (fun t => if DocumentProcessor.isBlank t then [] else [t]) "hello".data).map
        (fun c => c.chunk_index)
      = List.range (DocumentProcessor.parse_docx
          (fun t => if DocumentProcessor.isBlank t then [] else [t]) "hello".data).length :=
  (C2_chunk_indices_dense (fun t => if DocumentProcessor.isBlank t then [] else [t])
    ["page one".data] "hello".data "world".data
    (by
      intro t s hs
      cases hbt : DocumentProcessor.isBlank t
      · simp [hbt] at hs
        rw [hs]
        exact hbt
      · simp [hbt] at hs)).2.1

/-- Every citation emitted by the extraction loop started at counter i has
its label in the answer and a citation_order in (i, i + number of remaining
contexts]. -/
theorem AnswerGenerator.citationLoop_mem_bounds (ans : List Char) :
    ∀ (cs : List AnswerGenerator.Context) (i : ℕ) (c : AnswerGenerator.Citation),
      c ∈ AnswerGenerator.citationLoop ans cs i →
      AnswerGenerator.containsSub (AnswerGenerator.label c.citation_order) ans = true
      ∧ i + 1 ≤ c.citation_order ∧ c.citation_order ≤ i + cs.length := by
  intro cs
  induction cs with
  | nil => intro i c hc; simp [AnswerGenerator.citationLoop] at hc
  | cons x xs ih =>
    intro i c hc
    by_cases h : AnswerGenerator.containsSub (AnswerGenerator.label (i + 1)) ans
    · rw [AnswerGenerator.citationLoop, if_pos h] at hc
      rcases List.mem_cons.mp hc with hhead | htail
      · subst hhead
        exact ⟨h, le_refl _, by simp only [AnswerGenerator.mkCitation, List.length_cons]; omega⟩
      · obtain ⟨hocc, hlo, hhi⟩ := ih (i + 1) c htail
        exact ⟨hocc, by omega, by simp only [List.length_cons]; omega⟩
    · rw [AnswerGenerator.citationLoop, if_neg h] at hc
      obtain ⟨hocc, hlo, hhi⟩ := ih (i + 1) c hc
      exact ⟨hocc, by omega, by simp only [List.length_cons]; omega⟩

/-- The citation list produced by the extraction loop is strictly increasing
in citation_order. -/
theorem AnswerGenerator.citationLoop_sorted (ans : List Char) :
    ∀ (cs : List AnswerGenerator.Context) (i : ℕ),
      (AnswerGenerator.citationLoop ans cs i).Pairwise
        (fun a b => a.citation_order < b.citation_order) := by
  intro cs
  induction cs with
  | nil => intro i; simp [AnswerGenerator.citationLoop]
  | cons x xs ih =>
    intro i
    by_cases h : AnswerGenerator.containsSub (AnswerGenerator.label (i + 1)) ans
    · rw [AnswerGenerator.citationLoop, if_pos h]
      refine List.Pairwise.cons ?_ (ih (i + 1))
      intro c hc
      have := (AnswerGenerator.citationLoop_mem_bounds ans xs (i + 1) c hc).2.1
      simp only [AnswerGenerator.mkCitation]
      omega
    · rw [AnswerGenerator.citationLoop, if_neg h]
      exact ih (i + 1)

/-- A citation_order j is realized by the extraction loop started at counter
i exactly when j lies in (i, i + number of contexts] and the label [j]
occurs in the answer. -/
theorem AnswerGenerator.citationLoop_order_iff (ans : List Char) :
    ∀ (cs : List AnswerGenerator.Context) (i j : ℕ),
      (∃ c ∈ AnswerGenerator.citationLoop ans cs i, c.citation_order = j)
        ↔ (i + 1 ≤ j ∧ j ≤ i + cs.length
            ∧ AnswerGenerator.containsSub (AnswerGenerator.label j) ans = true) := by
  intro cs
  induction cs with
  | nil =>
    intro i j
    constructor
    · rintro ⟨c, hc, _⟩
      simp [AnswerGenerator.citationLoop] at hc
    · rintro ⟨h1, h2, _⟩
      simp only [List.length_nil, Nat.add_zero] at h2
      omega
  | cons x xs ih =>
    intro i j
    by_cases h : AnswerGenerator.containsSub (AnswerGenerator.label (i + 1)) ans
    · rw [AnswerGenerator.citationLoop, if_pos h]
      constructor
      · rintro ⟨c, hc, rfl⟩
        rcases List.mem_cons.mp hc with hhead | htail
        · subst hhead
          simp only [AnswerGenerator.mkCitation, List.length_cons]
          exact ⟨le_refl _, by omega, h⟩
        · obtain ⟨h1, h2, h3⟩ := (ih (i + 1) c.citation_order).mp ⟨c, htail, rfl⟩
          exact ⟨by omega, by simp only [List.length_cons]; omega, h3⟩
      · rintro ⟨h1, h2, h3⟩
        by_cases hj : j = i + 1
        · subst hj
          exact ⟨AnswerGenerator.mkCitation x (i + 1), List.mem_cons_self _ _, rfl⟩
        · have : i + 1 + 1 ≤ j := by omega
          obtain ⟨c, hc, hcj⟩ := (ih (i + 1) j).mpr
            ⟨this, by simp only [List.length_cons] at h2; omega, h3⟩
          exact ⟨c, List.mem_cons_of_mem _ hc, hcj⟩
    · rw [AnswerGenerator.citationLoop, if_neg h]
      constructor
      · rintro ⟨c, hc, rfl⟩
        obtain ⟨h1, h2, h3⟩ := (ih (i + 1) c.citation_order).mp ⟨c, hc, rfl⟩
        exact ⟨by omega, by simp only [List.length_cons]; omega, h3⟩
      · rintro ⟨h1, h2, h3⟩
        have hj : ¬ j = i + 1 := by
          intro hj
          subst hj
          exact h h3
        obtain ⟨c, hc, hcj⟩ := (ih (i + 1) j).mpr
          ⟨by omega, by simp only [List.length_cons] at h2; omega, h3⟩
        exact ⟨c, hc, hcj⟩

/-- C5: the derived citation list contains a citation with citation_order j
exactly when the literal label [j] occurs in the answer text and
1 ≤ j ≤ number of supplied contexts; every citation's label occurs verbatim
in the answer, citation_orders lie in [1, n] and are strictly increasing
(rank order, not order of first textual appearance), and zero supplied
contexts yield no citations. -/
theorem C5_citation_extraction :
    ∀ (contexts : List AnswerGenerator.Context) (answer : List Char),
      (∀ c ∈ AnswerGenerator.usedCitations contexts answer,
        AnswerGenerator.containsSub (AnswerGenerator.label c.citation_order) answer = true
        ∧ 1 ≤ c.citation_order ∧ c.citation_order ≤ contexts.length)
      ∧ (AnswerGenerator.usedCitations contexts answer).Pairwise
          (fun a b => a.citation_order < b.citation_order)
      ∧ (∀ j : ℕ,
          (∃ c ∈ AnswerGenerator.usedCitations contexts answer, c.citation_order = j)
          ↔ (1 ≤ j ∧ j ≤ contexts.length
              ∧ AnswerGenerator.containsSub (AnswerGenerator.label j) answer = true))
      ∧ AnswerGenerator.usedCitations [] answer = [] := by
  intro contexts answer
  refine ⟨?_, ?_, ?_, rfl⟩
  · intro c hc
    have := AnswerGenerator.citationLoop_mem_bounds answer contexts 0 c hc
    simpa using this
  · exact AnswerGenerator.citationLoop_sorted answer contexts 0
  · intro j
    have := AnswerGenerator.citationLoop_order_iff answer contexts 0 j
    simpa using this

/-- Witness for C5: a single context whose label [1] occurs in a concrete
answer produces exactly the corresponding citation. -/
theorem C5_citation_extraction_witness :
    (∃ c ∈ AnswerGenerator.usedCitations
        [{ text := "ctx".data, score := some (9 / 10), chunk_id := some "c1",
           metadata := { document_id := some "d1", chunk_id := some "c1",
                         page_number := some 1, chunk_index := 0 } }]
        "Revenue grew 10% [1].".data,
      c.citation_order = 1) :=
  ((C5_citation_extraction
      [{ text := "ctx".data, score := some (9 / 10), chunk_id := some "c1",
         metadata := { document_id := some "d1", chunk_id := some "c1",
                       page_number := some 1, chunk_index := 0 } }]
      "Revenue grew 10% [1].".data).2.2.1 1).mpr
    ⟨by decide, by decide, by decide⟩

/-- C1 counterexample: the answering job (`generate_answer_task`) does not
attach the `ConfidenceScorer` result to the persisted answer. On the empty
retrieval list its inline confidence sets retrieval (and overall) to 0.5 and
faithfulness to the constant 0.8, whereas the claim requires retrieval to be
the mean similarity, i.e. 0.0 for no results. -/
theorem C1_task_confidence_counterexample :
    (Tasks.taskConfidence []).retrieval = 1 / 2
    ∧ ¬ (Tasks.taskConfidence []).retrieval = 0
    ∧ (Tasks.taskConfidence []).overall = 1 / 2
    ∧ (Tasks.taskConfidence []).faithfulness = 4 / 5 := by
  refine ⟨rfl, ?_, rfl, rfl⟩
  intro h
  norm_num [Tasks.taskConfidence] at h

/-- C1 (amended): `ConfidenceScorer.calculate_confidence` returns retrieval =
mean of the similarity scores (0.0 when the list is empty), coverage = the
fraction of results with similarity strictly above 0.7, and overall =
0.25·retrieval + 0.15·coverage + 0.35·faithfulness + 0.25·relevancy computed
from the unrounded sub-scores, everything reported rounded to 3 decimal
places; but the answering job never calls the scorer — it persists a
simplified confidence whose overall equals its retrieval score (the mean
similarity, or 0.5 when there are no results) with faithfulness and
relevancy fixed at 0.8. -/
theorem C1_confidence_scoring :
    (∀ (results : List ConfidenceScorer.RetrievalResult)
      (faithResp relResp : Except Unit (Option ℚ)),
      results.all (fun r => r.text.isSome) = true →
      (ConfidenceScorer.calculate_confidence results faithResp relResp).retrieval
          = round3 (if (results.map ConfidenceScorer.getScore).isEmpty then 0
              else (results.map ConfidenceScorer.getScore).sum
                / ((results.map ConfidenceScorer.getScore).length : ℚ))
      ∧ (ConfidenceScorer.calculate_confidence results faithResp relResp).coverage
          = round3 ((((results.map ConfidenceScorer.getScore).filter
                (fun s => 7 / 10 < s)).length : ℚ)
              / ((max (results.map ConfidenceScorer.getScore).length 1 : ℕ) : ℚ))
      ∧ (ConfidenceScorer.calculate_confidence results faithResp relResp).overall
          = round3 (1 / 4 * (if (results.map ConfidenceScorer.getScore).isEmpty then 0
                else (results.map ConfidenceScorer.getScore).sum
                  / ((results.map ConfidenceScorer.getScore).length : ℚ))
              + 3 / 20 * ((((results.map ConfidenceScorer.getScore).filter
                    (fun s => 7 / 10 < s)).length : ℚ)
                  / ((max (results.map ConfidenceScorer.getScore).length 1 : ℕ) : ℚ))
              + 7 / 20 * ConfidenceScorer.check_faithfulness faithResp
              + 1 / 4 * ConfidenceScorer.check_relevancy relResp))
    ∧ (∀ results : List ConfidenceScorer.RetrievalResult,
      (Tasks.taskConfidence results).overall = (Tasks.taskConfidence results).retrieval
      ∧ (results = [] → (Tasks.taskConfidence results).retrieval = 1 / 2)
      ∧ (results ≠ [] → (Tasks.taskConfidence results).retrieval
          = (results.map ConfidenceScorer.getScore).sum
            / ((results.map ConfidenceScorer.getScore).length : ℚ))
      ∧ (Tasks.taskConfidence results).faithfulness = 4 / 5
      ∧ (Tasks.taskConfidence results).relevancy = 4 / 5) := by
  constructor
  · intro results faithResp relResp h
    unfold ConfidenceScorer.calculate_confidence
    rw [if_pos h]
    exact ⟨rfl, rfl, rfl⟩
  · intro results
    refine ⟨rfl, ?_, ?_, rfl, rfl⟩
    · intro h
      subst h
      rfl
    · intro h
      have hne : (results.map ConfidenceScorer.getScore).isEmpty = false := by
        simp [List.isEmpty_iff, h]
      simp [Tasks.taskConfidence, hne]

/-- Witness for C1 at a singleton retrieval list with score 1. -/
theorem C1_confidence_scoring_witness :
    ([{ score := some 1, text := some "t" }]
        : List ConfidenceScorer.RetrievalResult).all (fun r => r.text.isSome) = true
    ∧ (ConfidenceScorer.calculate_confidence
        [{ score := some 1, text := some "t" }] (.error ()) (.error ())).retrieval
      = round3 (if (([{ score := some 1, text := some "t" }]
            : List ConfidenceScorer.RetrievalResult).map
              ConfidenceScorer.getScore).isEmpty then 0
          else (([{ score := some 1, text := some "t" }]
            : List ConfidenceScorer.RetrievalResult).map
              ConfidenceScorer.getScore).sum
            / ((([{ score := some 1, text := some "t" }]
              : List ConfidenceScorer.RetrievalResult).map
                ConfidenceScorer.getScore).length : ℚ)) :=
  ⟨by decide,
   (C1_confidence_scoring.1 [{ score := some 1, text := some "t" }]
      (.error ()) (.error ()) (by decide)).1⟩

/-- C6 counterexample: when every sub-computation fails (BLEU raises and
yields None, the ROUGE computation raises and yields the all-zero dict,
semantic similarity raises and yields None), the overall score is `some 0`,
not absent: the failed ROUGE-L sub-score is treated as the valid zero 0.0
and kept in the weighted combination, contradicting the claim that a failed
sub-score is dropped and that no computable sub-score leaves overall absent. -/
theorem C6_failed_rouge_counterexample :
    EvaluationService.calculate_rouge (.error ())
        = { rouge1_f1 := 0, rouge2_f1 := 0, rougeL_f1 := 0 }
    ∧ EvaluationService.calculate_overall_score
        (EvaluationService.calculate_bleu (.error ()))
        (EvaluationService.calculate_rouge (.error ()))
        (EvaluationService.calculate_semantic_similarity (.error ()))
        = some 0
    ∧ ¬ EvaluationService.calculate_overall_score
        (EvaluationService.calculate_bleu (.error ()))
        (EvaluationService.calculate_rouge (.error ()))
        (EvaluationService.calculate_semantic_similarity (.error ()))
        = none := by
  refine ⟨rfl, ?_, ?_⟩
  · simp [EvaluationService.calculate_overall_score, EvaluationService.calculate_bleu,
      EvaluationService.calculate_rouge, EvaluationService.calculate_semantic_similarity]
  · simp [EvaluationService.calculate_overall_score, EvaluationService.calculate_bleu,
      EvaluationService.calculate_rouge, EvaluationService.calculate_semantic_similarity]

/-- C6 (amended): the overall evaluation score is the weighted combination
(25% BLEU, 25% ROUGE-L, 50% semantic similarity) renormalized over the
included sub-scores, where BLEU and semantic similarity are dropped from
numerator and denominator when not computable, but ROUGE-L is always
included (a failed ROUGE computation contributes the value 0.0); hence the
overall score is always present, never absent. -/
theorem C6_overall_renormalized :
    ∀ (bleu : Option ℚ) (rouge : EvaluationService.RougeScores) (semantic : Option ℚ),
      EvaluationService.calculate_overall_score bleu rouge semantic
        = some (EvaluationService.renormalizedOverall bleu rouge.rougeL_f1 semantic)
      ∧ (EvaluationService.calculate_overall_score bleu rouge semantic).isSome = true := by
  intro bleu rouge semantic
  rcases bleu with _ | b <;> rcases semantic with _ | s <;>
    constructor <;>
    simp only [EvaluationService.calculate_overall_score,
      EvaluationService.renormalizedOverall, List.nil_append, List.cons_append,
      List.append_nil, List.isEmpty_cons, List.map_cons, List.map_nil,
      List.sum_cons, List.sum_nil, Option.elim, Option.isSome,
      Bool.false_eq_true, if_false, Option.some.injEq] <;>
    norm_num <;> ring_nf

/-- Witness for C6 at BLEU 1/2 computable, ROUGE-L 1/4, semantic similarity
not computable. -/
theorem C6_overall_renormalized_witness :
    EvaluationService.calculate_overall_score (some (1 / 2))
        { rouge1_f1 := 0, rouge2_f1 := 0, rougeL_f1 := 1 / 4 } none
      = some (EvaluationService.renormalizedOverall (some (1 / 2)) (1 / 4) none) :=
  (C6_overall_renormalized (some (1 / 2))
    { rouge1_f1 := 0, rouge2_f1 := 0, rougeL_f1 := 1 / 4 } none).1

/-- C10: the evaluator's evaluate operation is a total function of the run
environment — it never raises — and when the whole computation fails (the
body raises into the outer `except`), the returned metrics record has every
field (bleu_score, rouge_1_f1, rouge_2_f1, rouge_l_f1, semantic_similarity,
overall_score) absent, exactly the all-default `EvaluationMetrics()`. -/
theorem C10_evaluate_total_default :
    ∀ env : Except Unit EvaluationService.EvalCalls,
      env = .error () →
      EvaluationService.evaluate env
        = { bleu_score := none, rouge_1_f1 := none, rouge_2_f1 := none,
            rouge_l_f1 := none, semantic_similarity := none, overall_score := none } := by
  intro env h
  subst h
  rfl

/-- Witness for C10 at the failing environment. -/
theorem C10_evaluate_total_default_witness :
    EvaluationService.evaluate (.error ())
      = { bleu_score := none, rouge_1_f1 := none, rouge_2_f1 := none,
          rouge_l_f1 := none, semantic_similarity := none, overall_score := none } :=
  C10_evaluate_total_default (.error ()) rfl
